import Mathlib

/-!
Shallow embedding of the combat / dice / persistence core of the LLM_DND
repository (file `engine.py`), together with theorems settling the frozen
claims about it.

Modelling conventions:
* Python `int` is `Int`; dice counts and die sizes handed to the roller are
  `Nat` (the reference tables only contain positive values).
* `random.Random.randint(1, k)` is modelled by an abstract stream of
  naturals (`Rng.stream`) reduced mod `k`: every theorem is quantified over
  all streams, so it covers every sequence the Python RNG can produce.
* Python dicts with a fixed key set become structures; `dict.get(k, d)`
  becomes `Option.getD`.
* Mutating methods become functions returning the new state alongside the
  Python return value.
-/

/-- Abstract pseudo-random source: a stream of naturals and a cursor.
Models the sequence of draws taken from `random.Random`. -/
structure Rng where
  stream : Nat → Nat
  idx : Nat

/-- Models `rng.randint(1, k)`: a value in `[1, k]` (for `k ≥ 1`), advancing
the stream cursor by one. -/
def Rng.randint1 (r : Rng) (k : Nat) : Nat × Rng :=
  (1 + r.stream r.idx % k, ⟨r.stream, r.idx + 1⟩)

/-- Loop of `DiceRoller.roll`: roll `n` dice of size `size`, returning the
individual rolls and the advanced rng. -/
def rollList : Nat → Nat → Rng → List Nat × Rng
  | 0, _, r => ([], r)
  | n + 1, size, r =>
    let a := r.randint1 size
    let rest := rollList n size a.2
    (a.1 :: rest.1, rest.2)

/-- Source `DiceRoller.roll(num_dice, die_size)`: individual rolls, their total, and
the advanced rng. -/
def roll (num_dice die_size : Nat) (r : Rng) : List Nat × Nat × Rng :=
  let a := rollList num_dice die_size r
  (a.1, a.1.sum, a.2)

/-- Source `DiceRoller.roll_d20(modifier, stat_name, advantage, disadvantage)`:
returns (raw roll, total, display string, advanced rng). -/
def roll_d20 (modifier : Int) (stat_name : String)
    (advantage disadvantage : Bool) (r : Rng) : Nat × Int × String × Rng :=
  let step : Nat × String × Rng :=
    if advantage && !disadvantage then
      let a := r.randint1 20
      let b := a.2.randint1 20
      (max a.1 b.1,
        " (ADV: " ++ toString a.1 ++ ", " ++ toString b.1 ++ ")", b.2)
    else if disadvantage && !advantage then
      let a := r.randint1 20
      let b := a.2.randint1 20
      (min a.1 b.1,
        " (DIS: " ++ toString a.1 ++ ", " ++ toString b.1 ++ ")", b.2)
    else
      let a := r.randint1 20
      (a.1, "", a.2)
  let raw := step.1
  let adv_str := step.2.1
  let r1 := step.2.2
  let total : Int := (raw : Int) + modifier
  let display :=
    if stat_name ≠ "" ∧ modifier ≠ 0 then
      let sign := if 0 ≤ modifier then "+" else ""
      "d20: " ++ toString raw ++ adv_str ++ " " ++ sign ++ " " ++ stat_name
        ++ "(" ++ toString modifier ++ ") = " ++ toString total
    else if modifier ≠ 0 then
      let sign := if 0 ≤ modifier then "+" else ""
      "d20: " ++ toString raw ++ adv_str ++ " " ++ sign ++ toString modifier
        ++ " = " ++ toString total
    else
      "d20: " ++ toString raw ++ adv_str
  (raw, total, display, r1)

/-- Source `DiceRoller.roll_damage(num_dice, die_size, modifier, stat_name)`:
returns (total damage, display string, advanced rng). The total is floored
at 1 (`max(1, total)` in the source). -/
def roll_damage (num_dice die_size : Nat) (modifier : Int)
    (stat_name : String) (r : Rng) : Int × String × Rng :=
  let a := roll num_dice die_size r
  let rolls := a.1
  let dice_total := a.2.1
  let r1 := a.2.2
  let total : Int := (dice_total : Int) + modifier
  let rolls_str :=
    if rolls.length == 1 then toString (rolls.headD 0)
    else "(" ++ String.intercalate ("+") (rolls.map toString) ++ ")"
  let display :=
    if stat_name ≠ "" ∧ modifier ≠ 0 then
      let sign := if 0 ≤ modifier then "+" else ""
      toString num_dice ++ "d" ++ toString die_size ++ ": " ++ rolls_str
        ++ " " ++ sign ++ " " ++ stat_name ++ "(" ++ toString modifier
        ++ ") = " ++ toString total
    else if modifier ≠ 0 then
      let sign := if 0 ≤ modifier then "+" else ""
      toString num_dice ++ "d" ++ toString die_size ++ ": " ++ rolls_str
        ++ " " ++ sign ++ toString modifier ++ " = " ++ toString total
    else
      toString num_dice ++ "d" ++ toString die_size ++ ": " ++ rolls_str
        ++ " = " ++ toString total
  (max 1 total, display, r1)

/-- Source `DiceRoller.get_seed`. The roller stores the seed it was constructed
with (`none` for an unseeded roller). Python evaluates
`self.seed if self.seed else random.randint(0, 999999)`: the stored seed is
returned only when it is *truthy*, i.e. present and nonzero; otherwise a
fresh draw from the global `random` module is returned, modelled here by the
`fresh` argument. -/
def get_seed (seed : Option Int) (fresh : Int) : Int :=
  match seed with
  | some s => if s ≠ 0 then s else fresh
  | none => fresh

/-- One entry of the `stats` dict: `{"score": ..., "modifier": ...}`. -/
structure StatBlock where
  score : Int
  modifier : Int
deriving Repr, DecidableEq

/-- The per-class `ability` descriptor from the `CLASSES` table. -/
structure Ability where
  name : String
  description : String
  uses : Int
  cooldown_type : String
  effect : String
deriving Repr, DecidableEq

/-- One entry of the `CLASSES` reference table. -/
structure ClassData where
  base_hp : Int
  primary_stat : String
  starting_gold : Int
  starting_items : List String
  ability : Ability
deriving Repr, DecidableEq

/-- The `CLASSES["fighter"]` entry (also the fallback for unknown classes). -/
def fighterData : ClassData :=
  { base_hp := 18, primary_stat := "STR", starting_gold := 10
    starting_items := ["Longsword", "Chain Mail", "Health Potion"]
    ability := { name := "Second Wind", description := "Heal 1d10 + 2 HP"
                 uses := 1, cooldown_type := "rest", effect := "heal" } }

/-- The `CLASSES["rogue"]` entry. -/
def rogueData : ClassData :=
  { base_hp := 12, primary_stat := "DEX", starting_gold := 15
    starting_items := ["Dagger", "Leather Armor", "Lockpicks", "Health Potion"]
    ability := { name := "Sneak Attack"
                 description := "Deal +2d6 extra damage on your next attack"
                 uses := 1, cooldown_type := "combat", effect := "damage_boost" } }

/-- The `CLASSES["mage"]` entry. -/
def mageData : ClassData :=
  { base_hp := 10, primary_stat := "INT", starting_gold := 12
    starting_items := ["Staff", "Robes", "Spell Component Pouch",
                       "Health Potion", "Mana Potion"]
    ability := { name := "Fireball", description := "Unleash 3d6 fire damage"
                 uses := 2, cooldown_type := "day", effect := "direct_damage" } }

/-- The `CLASSES` reference table. -/
def CLASSES : List (String × ClassData) :=
  [("fighter", fighterData), ("rogue", rogueData), ("mage", mageData)]

/-- One entry of the `WEAPONS` reference table. -/
structure WeaponData where
  damage_dice : Nat × Nat
  stat : String
  description : String
deriving Repr, DecidableEq

/-- The `WEAPONS` reference table. -/
def WEAPONS : List (String × WeaponData) :=
  [("Longsword", { damage_dice := (1, 8), stat := "STR"
                   description := "A reliable blade for any warrior" }),
   ("Dagger", { damage_dice := (1, 4), stat := "DEX"
                description := "Quick and deadly in skilled hands" }),
   ("Staff", { damage_dice := (1, 6), stat := "INT"
               description := "A focus for arcane power" }),
   ("Rusty Sword", { damage_dice := (1, 6), stat := "STR"
                     description := "Seen better days, but still sharp" }),
   ("Hand Axe", { damage_dice := (1, 6), stat := "STR"
                  description := "Good for chopping wood... or enemies" })]

/-- The dict produced by `Enemy.to_dict` (tuple fields stored as lists). -/
structure EnemyDict where
  name : String
  hp : Int
  max_hp : Int
  ac : Int
  attack_bonus : Int
  damage_dice : List Int
  damage_bonus : Int
  xp : Int
  gold_drop : List Int
  behavior : String
  description : String
  loot : List String
deriving Repr, DecidableEq

/-- The `Enemy` dataclass. `damage_dice` and `gold_drop` are the
documented pairs `(num_dice, die_size)` and `(min, max)`. -/
structure Enemy where
  name : String
  hp : Int
  max_hp : Int
  ac : Int
  attack_bonus : Int
  damage_dice : Int × Int
  damage_bonus : Int
  xp : Int
  gold_drop : Int × Int
  behavior : String
  description : String
  loot : List String
deriving Repr, DecidableEq

/-- Source `Enemy.to_dict`: tuple fields become lists. -/
def Enemy.to_dict (e : Enemy) : EnemyDict :=
  { name := e.name, hp := e.hp, max_hp := e.max_hp, ac := e.ac
    attack_bonus := e.attack_bonus
    damage_dice := [e.damage_dice.1, e.damage_dice.2]
    damage_bonus := e.damage_bonus, xp := e.xp
    gold_drop := [e.gold_drop.1, e.gold_drop.2]
    behavior := e.behavior, description := e.description, loot := e.loot }

/-- Source `Enemy.from_dict`: `tuple(...)` on the two list fields. The Python code
turns a list of any length into a tuple; an `Enemy` whose tuple fields are
genuine pairs only arises from two-element lists, so the embedding returns
`none` for other shapes (which never occur for dicts built by `to_dict`). -/
def Enemy.from_dict (d : EnemyDict) : Option Enemy :=
  match d.damage_dice, d.gold_drop with
  | [a, b], [c, e] =>
    some { name := d.name, hp := d.hp, max_hp := d.max_hp, ac := d.ac
           attack_bonus := d.attack_bonus, damage_dice := (a, b)
           damage_bonus := d.damage_bonus, xp := d.xp, gold_drop := (c, e)
           behavior := d.behavior, description := d.description
           loot := d.loot }
  | _, _ => none

/-- The complete `GameState` dataclass, with the dataclass defaults.
The payload types of `world_flags` and quest records (arbitrary Python
values) are modelled as strings; no operation embedded here reads or writes
inside them. -/
structure GameState where
  name : String := "Adventurer"
  player_class : String := "fighter"
  stats : List (String × StatBlock) :=
    [("STR", ⟨10, 0⟩), ("DEX", ⟨10, 0⟩), ("INT", ⟨10, 0⟩), ("CHA", ⟨10, 0⟩)]
  hp : Int := 18
  max_hp : Int := 18
  ac : Int := 10
  gold : Int := 10
  inventory : List String := []
  equipped_weapon : String := "Fists"
  ability_uses : Int := 1
  ability_max_uses : Int := 1
  sneak_attack_available : Bool := true
  location : String := "tavern"
  visited_locations : List String := []
  world_flags : List (String × String) := []
  quests : List (String × List (String × String)) := []
  active_quest : Option String := none
  in_combat : Bool := false
  current_enemy : Option EnemyDict := none
  turn_count : Int := 0
  story_summary : String := ""
  story_log : List String := []
  game_started : Bool := false
  game_over : Bool := false
  ending : Option String := none
deriving Repr, DecidableEq

/-- Source `GameState.get_modifier`: `stats.get(stat, {}).get("modifier", 0)`. -/
def GameState.get_modifier (s : GameState) (stat : String) : Int :=
  match s.stats.lookup stat with
  | some b => b.modifier
  | none => 0

/-- Source `GameState.get_score`: `stats.get(stat, {}).get("score", 10)`. -/
def GameState.get_score (s : GameState) (stat : String) : Int :=
  match s.stats.lookup stat with
  | some b => b.score
  | none => 10

/-- Source `GameState.get_equipped_weapon_data`: table lookup with the bare-fists
fallback `{"damage_dice": (1, 2), "stat": "STR"}`. -/
def GameState.get_equipped_weapon_data (s : GameState) : WeaponData :=
  match WEAPONS.lookup s.equipped_weapon with
  | some w => w
  | none => { damage_dice := (1, 2), stat := "STR", description := "Bare fists" }

/-- Source `GameState.get_class_data`: `CLASSES.get(player_class, CLASSES["fighter"])`. -/
def GameState.get_class_data (s : GameState) : ClassData :=
  match CLASSES.lookup s.player_class with
  | some c => c
  | none => fighterData

/-- Source `GameState.get_ability_info`. -/
def GameState.get_ability_info (s : GameState) : Ability :=
  s.get_class_data.ability

/-- Source `GameState.use_ability`: decrement `ability_uses` when positive;
returns the Python boolean result and the new state. -/
def GameState.use_ability (s : GameState) : Bool × GameState :=
  if 0 < s.ability_uses then
    (true, { s with ability_uses := s.ability_uses - 1 })
  else (false, s)

/-- Source `GameState.heal(amount)`: heal up to `max_hp`; returns the amount
actually healed and the new state. -/
def GameState.heal (s : GameState) (amount : Int) : Int × GameState :=
  let actual := min amount (s.max_hp - s.hp)
  (actual, { s with hp := s.hp + actual })

/-- Source `GameState.take_damage(amount)`: lose at most `hp`; returns the damage
actually taken and the new state. -/
def GameState.take_damage (s : GameState) (amount : Int) : Int × GameState :=
  let actual := min amount s.hp
  (actual, { s with hp := s.hp - actual })

/-- The `CombatResult` class. In `player_attack` the constructor is called
without the `critical` argument, so the field keeps its `False` default. -/
structure CombatResult where
  success : Bool
  message : String
  damage : Int
  roll_display : String
  critical : Bool
deriving Repr, DecidableEq

/-- Clamp of the `damage_dice` list in `create_enemy_from_llm`: a
two-element list is clamped componentwise, anything else falls back to
`(1, 6)`. -/
def clampDamageDice : List Int → Int × Int
  | [a, b] => (max 1 (min 4 a), max 4 (min 12 b))
  | _ => (1, 6)

/-- Clamp of the `gold_drop` list in `create_enemy_from_llm`:
`(max(0, gold_drop[0]), max(gold_drop[0], gold_drop[1]))` for a two-element
list (note the second component compares against the *unclamped* first
input), else `(1, 5)`. -/
def clampGoldDrop : List Int → Int × Int
  | [a, b] => (max 0 a, max a b)
  | _ => (1, 5)

/-- The dict of Oracle-supplied enemy fields handed to
`create_enemy_from_llm`; `none` models a missing key. -/
structure EnemyData where
  name : Option String := none
  hp : Option Int := none
  ac : Option Int := none
  attack_bonus : Option Int := none
  damage_dice : Option (List Int) := none
  damage_bonus : Option Int := none
  xp : Option Int := none
  gold_drop : Option (List Int) := none
  behavior : Option String := none
  description : Option String := none
  loot : Option (List String) := none
deriving Repr, DecidableEq

/-- Source `create_enemy_from_llm(enemy_data)`: defaults plus clamping. -/
def create_enemy_from_llm (d : EnemyData) : Enemy :=
  let name := d.name.getD ("Mysterious Creature")
  let hp := max 1 (min 100 (d.hp.getD 10))
  let ac := max 8 (min 20 (d.ac.getD 12))
  let attack_bonus := max (-2) (min 8 (d.attack_bonus.getD 2))
  let damage_dice := clampDamageDice (d.damage_dice.getD [1, 6])
  let damage_bonus := max 0 (min 5 (d.damage_bonus.getD 1))
  let xp := max 10 (min 500 (d.xp.getD 25))
  let gold_drop := clampGoldDrop (d.gold_drop.getD [1, 5])
  { name := name, hp := hp, max_hp := hp, ac := ac
    attack_bonus := attack_bonus, damage_dice := damage_dice
    damage_bonus := damage_bonus, xp := xp, gold_drop := gold_drop
    behavior := d.behavior.getD ("aggressive")
    description := d.description.getD ("")
    loot := d.loot.getD [] }

/-- Body of `player_attack` once the stored enemy dict has been converted
back to an `Enemy` (the `Enemy.from_dict(state.current_enemy)` step). -/
def player_attack_with (state : GameState) (enemy : Enemy)
    (use_sneak_attack : Bool) (r : Rng) : CombatResult × GameState × Rng :=
  let weapon := state.get_equipped_weapon_data
  let stat_name := weapon.stat
  let modifier := state.get_modifier stat_name
  let d := roll_d20 modifier stat_name false false r
  let raw := d.1
  let total := d.2.1
  let roll_display := d.2.2.1
  let r1 := d.2.2.2
  let critical := raw == 20
  let critical_miss := raw == 1
  if critical_miss then
    (⟨false, "Critical miss! Your attack goes wide.", 0, roll_display, false⟩,
      state, r1)
  else if total ≥ enemy.ac ∨ critical = true then
    let num_dice := if critical then weapon.damage_dice.1 * 2
      else weapon.damage_dice.1
    let dmg := roll_damage num_dice weapon.damage_dice.2 modifier stat_name r1
    let sneakApplies := use_sneak_attack && (state.player_class == "rogue")
      && state.sneak_attack_available
    let step : Int × String × Bool × Rng :=
      if sneakApplies then
        let sr := roll 2 6 dmg.2.2
        (dmg.1 + (sr.2.1 : Int),
          dmg.2.1 ++ " + Sneak(" ++ toString sr.2.1 ++ ")", false, sr.2.2)
      else (dmg.1, dmg.2.1, state.sneak_attack_available, dmg.2.2)
    let damage := step.1
    let dmg_display := step.2.1
    let enemy2 : Enemy := { enemy with hp := enemy.hp - damage }
    let state2 : GameState := { state with
      sneak_attack_available := step.2.2.1
      current_enemy := some enemy2.to_dict }
    let crit_text := if critical then " CRITICAL HIT!" else ""
    (⟨true, "Hit!" ++ crit_text, damage,
      "[Attack] " ++ roll_display ++ " vs AC " ++ toString enemy.ac
        ++ "\n[Damage] " ++ dmg_display, false⟩, state2, step.2.2.2)
  else
    (⟨false, "Miss! AC " ++ toString enemy.ac ++ " needed.", 0,
      "[Attack] " ++ roll_display ++ " vs AC " ++ toString enemy.ac, false⟩,
      state, r1)

/-- Source `player_attack(state, use_sneak_attack)`: attack the current enemy.
With no current enemy it fails immediately; the `from_dict` failure branch
cannot occur for enemy dicts built by `Enemy.to_dict`. -/
def player_attack (state : GameState) (use_sneak_attack : Bool) (r : Rng) :
    CombatResult × GameState × Rng :=
  match state.current_enemy with
  | none => (⟨false, "No enemy to attack!", 0, "", false⟩, state, r)
  | some ed =>
    match Enemy.from_dict ed with
    | some enemy => player_attack_with state enemy use_sneak_attack r
    | none => (⟨false, "No enemy to attack!", 0, "", false⟩, state, r)

/-- Source `use_class_ability(state)`: returns (success, message, value) plus the
new state and rng. -/
def use_class_ability (state : GameState) (r : Rng) :
    Bool × String × Int × GameState × Rng :=
  if state.ability_uses ≤ 0 then
    (false, "No ability uses remaining!", 0, state, r)
  else
    let ability := state.get_ability_info
    let s1 := state.use_ability.2
    if ability.effect == "heal" then
      let a := roll 1 10 r
      let heal_amount := (a.2.1 : Int) + 2
      let h := s1.heal heal_amount
      (true, "Second Wind! Healed " ++ toString h.1 ++ " HP.", h.1, h.2, a.2.2)
    else if ability.effect == "direct_damage" then
      let a := roll 3 6 r
      let damage := (a.2.1 : Int)
      let s2 :=
        match s1.current_enemy with
        | some ed =>
          match Enemy.from_dict ed with
          | some en =>
            let en2 : Enemy := { en with hp := en.hp - damage }
            { s1 with current_enemy := some en2.to_dict }
          | none => s1
        | none => s1
      (true, "Fireball! Dealt " ++ toString damage ++ " fire damage!",
        damage, s2, a.2.2)
    else if ability.effect == "damage_boost" then
      (true, "Sneak Attack ready! Use Attack to deal bonus damage.", 0,
        { s1 with sneak_attack_available := true
                  ability_uses := s1.ability_uses + 1 }, r)
    else
      (false, "Unknown ability!", 0, s1, r)

/-- Source `attempt_flee(state)`: d20 + DEX modifier against the fixed DC 12;
returns (escaped, message) plus the new state and rng. -/
def attempt_flee (state : GameState) (r : Rng) :
    Bool × String × GameState × Rng :=
  let dex_mod := state.get_modifier ("DEX")
  let d := roll_d20 dex_mod ("DEX") false false r
  let total := d.2.1
  let roll_display := d.2.2.1
  let r1 := d.2.2.2
  if total ≥ 12 then
    (true, "[Flee] " ++ roll_display ++ " vs DC 12 - Escaped!",
      { state with in_combat := false, current_enemy := none
                   sneak_attack_available := true }, r1)
  else
    (false, "[Flee] " ++ roll_display ++ " vs DC 12 - Failed to escape!",
      state, r1)

/-- A deterministic rng stream that always yields `c`, used to evaluate the
operations at concrete inputs. -/
def constRng (c : Nat) : Rng := ⟨fun _ => c, 0⟩

/-- A concrete well-formed enemy used to evaluate the combat operations. -/
def goblin : Enemy :=
  { name := "Goblin", hp := 7, max_hp := 7, ac := 13, attack_bonus := 2
    damage_dice := (1, 6), damage_bonus := 1, xp := 25, gold_drop := (1, 5)
    behavior := "aggressive", description := "", loot := [] }

/-- A concrete rogue mid-combat against `goblin` (remaining fields keep the
dataclass defaults). -/
def rogueState : GameState :=
  { player_class := "rogue", equipped_weapon := "Dagger", hp := 12
    max_hp := 12, in_combat := true, current_enemy := some goblin.to_dict }

/-!
## Theorems

Claim-by-claim verification against the embedding above.
-/

/-- Both clamped damage-dice components sit in the documented ranges for
every input list. -/
theorem clampDamageDice_bounds : ∀ l : List Int,
    1 ≤ (clampDamageDice l).1 ∧ (clampDamageDice l).1 ≤ 4 ∧
    4 ≤ (clampDamageDice l).2 ∧ (clampDamageDice l).2 ≤ 12
  | [] => by simp [clampDamageDice]
  | [a] => by simp [clampDamageDice]
  | [a, b] => by simp only [clampDamageDice]; omega
  | a :: b :: c :: t => by simp [clampDamageDice]

/-- The clamped gold-drop low bound is never negative. -/
theorem clampGoldDrop_fst_nonneg : ∀ l : List Int, 0 ≤ (clampGoldDrop l).1
  | [] => by simp [clampGoldDrop]
  | [a] => by simp [clampGoldDrop]
  | [a, b] => by simp only [clampGoldDrop]; omega
  | a :: b :: c :: t => by simp [clampGoldDrop]

/-- For a two-element gold-drop input whose low entry is nonnegative, the
stored high is at least the stored low. -/
theorem clampGoldDrop_ordered (a b : Int) (ha : 0 ≤ a) :
    (clampGoldDrop [a, b]).1 ≤ (clampGoldDrop [a, b]).2 := by
  simp only [clampGoldDrop]; omega

/-- Claim C1 counterexample: for the input `gold_drop = [-5, -7]` the
constructed enemy stores `gold_drop = (0, -5)`, whose high component is
strictly below its low component, refuting the claimed bound
`gold_drop high ≥ gold_drop low` for arbitrary inputs. -/
theorem create_enemy_gold_drop_violation :
    (create_enemy_from_llm { gold_drop := some [-5, -7] }).gold_drop.2
      < (create_enemy_from_llm { gold_drop := some [-5, -7] }).gold_drop.1 := by
  decide

/-- Claim C1 (amended): every enemy built by `create_enemy_from_llm`
satisfies the clamp bounds hp ∈ [1,100], ac ∈ [8,20], attack_bonus ∈ [-2,8],
damage dice count ∈ [1,4], die size ∈ [4,12], damage_bonus ∈ [0,5],
xp ∈ [10,500] and gold_drop low ≥ 0; gold_drop high ≥ gold_drop low holds
whenever the supplied two-element gold_drop list has a nonnegative first
entry, and whenever no two-element gold_drop list is supplied at all — but
not in general, since the stored high is `max(input low, input high)`
computed from the *unclamped* input low. The example inputs of the claim
(hp 9999, attack_bonus -50, gold_drop [5, 2]) clamp to 100, -2 and (5, 5)
respectively. -/
theorem create_enemy_clamps (d : EnemyData) :
    (1 ≤ (create_enemy_from_llm d).hp ∧ (create_enemy_from_llm d).hp ≤ 100) ∧
    (8 ≤ (create_enemy_from_llm d).ac ∧ (create_enemy_from_llm d).ac ≤ 20) ∧
    (-2 ≤ (create_enemy_from_llm d).attack_bonus ∧
      (create_enemy_from_llm d).attack_bonus ≤ 8) ∧
    (1 ≤ (create_enemy_from_llm d).damage_dice.1 ∧
      (create_enemy_from_llm d).damage_dice.1 ≤ 4) ∧
    (4 ≤ (create_enemy_from_llm d).damage_dice.2 ∧
      (create_enemy_from_llm d).damage_dice.2 ≤ 12) ∧
    (0 ≤ (create_enemy_from_llm d).damage_bonus ∧
      (create_enemy_from_llm d).damage_bonus ≤ 5) ∧
    (10 ≤ (create_enemy_from_llm d).xp ∧ (create_enemy_from_llm d).xp ≤ 500) ∧
    0 ≤ (create_enemy_from_llm d).gold_drop.1 ∧
    (∀ a b : Int, d.gold_drop = some [a, b] → 0 ≤ a →
      (create_enemy_from_llm d).gold_drop.1
        ≤ (create_enemy_from_llm d).gold_drop.2) ∧
    ((∀ a b : Int, d.gold_drop ≠ some [a, b]) →
      (create_enemy_from_llm d).gold_drop.1
        ≤ (create_enemy_from_llm d).gold_drop.2) ∧
    (create_enemy_from_llm { hp := some 9999 }).hp = 100 ∧
    (create_enemy_from_llm { attack_bonus := some (-50) }).attack_bonus
      = -2 ∧
    (create_enemy_from_llm { gold_drop := some [5, 2] }).gold_drop
      = (5, 5) := by
  have hdd := clampDamageDice_bounds (d.damage_dice.getD [1, 6])
  have hg1 := clampGoldDrop_fst_nonneg (d.gold_drop.getD [1, 5])
  refine ⟨?_, ?_, ?_, ?_, ?_, ?_, ?_, ?_, ?_, ?_, by decide, by decide,
    by decide⟩
  · simp only [create_enemy_from_llm]; omega
  · simp only [create_enemy_from_llm]; omega
  · simp only [create_enemy_from_llm]; omega
  · simp only [create_enemy_from_llm]; exact ⟨hdd.1, hdd.2.1⟩
  · simp only [create_enemy_from_llm]; exact ⟨hdd.2.2.1, hdd.2.2.2⟩
  · simp only [create_enemy_from_llm]; omega
  · simp only [create_enemy_from_llm]; omega
  · simp only [create_enemy_from_llm]; exact hg1
  · intro a b hab ha
    simp only [create_enemy_from_llm, hab, Option.getD_some]
    exact clampGoldDrop_ordered a b ha
  · intro hno
    simp only [create_enemy_from_llm]
    rcases hg : d.gold_drop with _ | l
    · simp [clampGoldDrop]
    · rcases l with _ | ⟨a, _ | ⟨b, _ | t⟩⟩
      · simp [clampGoldDrop]
      · simp [clampGoldDrop]
      · exact absurd hg (hno a b)
      · simp [clampGoldDrop]

/-- Witness for `create_enemy_clamps` at the example input given by the spec,
`hp = 9999`, `attack_bonus = -50`, `gold_drop = [5, 2]`. -/
theorem create_enemy_clamps_witness :
    (create_enemy_from_llm
        { hp := some 9999, attack_bonus := some (-50)
          gold_drop := some [5, 2] }).gold_drop.1
      ≤ (create_enemy_from_llm
        { hp := some 9999, attack_bonus := some (-50)
          gold_drop := some [5, 2] }).gold_drop.2 :=
  (create_enemy_clamps
    { hp := some 9999, attack_bonus := some (-50)
      gold_drop := some [5, 2] }).2.2.2.2.2.2.2.2.1 5 2 rfl (by norm_num)

/-- Claim C2: evaluation of `get_seed` at the failing input. A roller
constructed with seed 0 does not report the seed it was given: the Python code
`self.seed if self.seed else random.randint(0, 999999)` treats the stored
seed 0 as falsy and returns the fresh global draw (here 7) instead, so the
saved `rng_seed` does not govern the rolls of the session; a nonzero seed (here
5) is returned faithfully. -/
theorem get_seed_zero_seed_bug :
    get_seed (some 0) 7 = 7 ∧ get_seed (some 0) 7 ≠ 0 ∧
    get_seed (some 5) 7 = 5 := by
  decide

/-- Claim C4: on any state with `0 ≤ hp ≤ max_hp` and any nonnegative
amount, `heal` returns exactly `min(amount, max_hp - hp)` and keeps
`0 ≤ hp ≤ max_hp`, and `take_damage` returns exactly `min(amount, hp)` and
keeps `0 ≤ hp ≤ max_hp`. -/
theorem heal_take_damage_clamped (s : GameState) (amount : Int)
    (h0 : 0 ≤ s.hp) (h1 : s.hp ≤ s.max_hp) (h2 : 0 ≤ amount) :
    ((s.heal amount).1 = min amount (s.max_hp - s.hp) ∧
      0 ≤ (s.heal amount).2.hp ∧
      (s.heal amount).2.hp ≤ (s.heal amount).2.max_hp) ∧
    ((s.take_damage amount).1 = min amount s.hp ∧
      0 ≤ (s.take_damage amount).2.hp ∧
      (s.take_damage amount).2.hp ≤ (s.take_damage amount).2.max_hp) := by
  refine ⟨⟨rfl, ?_, ?_⟩, rfl, ?_, ?_⟩ <;>
    simp [GameState.heal, GameState.take_damage] <;> omega

/-- Witness for `heal_take_damage_clamped` on the default game state
(hp = max_hp = 18) healing/taking 3. -/
theorem heal_take_damage_clamped_witness :
    ((({} : GameState).heal 3).1
        = min 3 (({} : GameState).max_hp - ({} : GameState).hp) ∧
      0 ≤ (({} : GameState).heal 3).2.hp ∧
      (({} : GameState).heal 3).2.hp ≤ (({} : GameState).heal 3).2.max_hp) ∧
    ((({} : GameState).take_damage 3).1 = min 3 ({} : GameState).hp ∧
      0 ≤ (({} : GameState).take_damage 3).2.hp ∧
      (({} : GameState).take_damage 3).2.hp
        ≤ (({} : GameState).take_damage 3).2.max_hp) :=
  heal_take_damage_clamped {} 3 (by decide) (by decide) (by decide)

/-- Claim C7: with no ability uses remaining, `use_class_ability` returns
the structured failure `(False, "No ability uses remaining!", 0)` and the
state (and rng) are returned completely unchanged. -/
theorem use_class_ability_exhausted (s : GameState) (r : Rng)
    (h : s.ability_uses ≤ 0) :
    use_class_ability s r = (false, "No ability uses remaining!", 0, s, r) := by
  simp [use_class_ability, h]

/-- Witness for `use_class_ability_exhausted` on the default state with its
uses zeroed out. -/
theorem use_class_ability_exhausted_witness :
    use_class_ability { ability_uses := 0 } (constRng 0)
      = (false, "No ability uses remaining!", 0,
          { ability_uses := 0 }, constRng 0) :=
  use_class_ability_exhausted { ability_uses := 0 } (constRng 0) (by decide)

/-- Claim C8: for at least one die of any positive size and any modifier
(however negative), the damage total reported by `roll_damage` is at
least 1, on every possible random stream. -/
theorem roll_damage_min_one (num_dice die_size : Nat) (modifier : Int)
    (stat_name : String) (r : Rng)
    (h1 : 1 ≤ num_dice) (h2 : 1 ≤ die_size) :
    1 ≤ (roll_damage num_dice die_size modifier stat_name r).1 := by
  simp only [roll_damage]
  exact le_max_left _ _

/-- Witness for `roll_damage_min_one` at `1d1 - 99`. -/
theorem roll_damage_min_one_witness :
    1 ≤ (roll_damage 1 1 (-99) ("") (constRng 0)).1 :=
  roll_damage_min_one 1 1 (-99) ("") (constRng 0) (by decide) (by decide)

/-- Claim C9: the snapshot round trip `Enemy.from_dict(Enemy.to_dict(e))`
reproduces every enemy losslessly, including the tuple-shaped
`damage_dice` and `gold_drop` fields and the loot list. -/
theorem enemy_dict_round_trip (e : Enemy) :
    Enemy.from_dict (Enemy.to_dict e) = some e := by
  rcases e with ⟨n, hp, mhp, ac, ab, ⟨d1, d2⟩, db, xp, ⟨g1, g2⟩, bh, ds, lt⟩
  rfl

/-- Claim C5: `attempt_flee` succeeds exactly when d20 + DEX modifier
reaches the fixed DC 12; on success the new state is the old state with
`in_combat := false`, `current_enemy := none` and
`sneak_attack_available := true` set together in one update; on failure the
state is returned untouched. The function is total over all game states
(it never inspects the combat fields), so it cannot crash. -/
theorem attempt_flee_spec (state : GameState) (r : Rng) :
    ((attempt_flee state r).1 = true ↔
      ((1 + r.stream r.idx % 20 : Nat) : Int)
        + state.get_modifier ("DEX") ≥ 12) ∧
    ((attempt_flee state r).1 = true →
      (attempt_flee state r).2.2.1 =
        { state with in_combat := false, current_enemy := none
                     sneak_attack_available := true }) ∧
    ((attempt_flee state r).1 = false → (attempt_flee state r).2.2.1 = state) := by
  by_cases hdc : (12 : Int) ≤ 1 + ((r.stream r.idx : Int)) % 20
      + state.get_modifier ("DEX")
  · refine ⟨?_, ?_, ?_⟩ <;> simp [attempt_flee, roll_d20, Rng.randint1, hdc]
  · refine ⟨?_, ?_, ?_⟩ <;> simp [attempt_flee, roll_d20, Rng.randint1, hdc]

/-- Witness for `attempt_flee_spec` on the default state (DEX modifier 0)
with a stream forcing a raw 20: the escape succeeds and clears the combat
fields together. -/
theorem attempt_flee_spec_witness :
    (attempt_flee {} (constRng 19)).2.2.1 =
      { ({} : GameState) with in_combat := false, current_enemy := none
                              sneak_attack_available := true } :=
  (attempt_flee_spec {} (constRng 19)).2.1 (by rfl)

/-- Claim C6: for a player whose class ability has the `damage_boost`
effect (the rogue) and at least one ability use left, `use_class_ability`
succeeds, turns `sneak_attack_available` on, and refunds the consumed use,
leaving `ability_uses` exactly as it was. -/
theorem use_class_ability_sneak_refund (s : GameState) (r : Rng)
    (hab : (s.get_ability_info).effect = "damage_boost")
    (hu : 0 < s.ability_uses) :
    (use_class_ability s r).1 = true ∧
    (use_class_ability s r).2.2.2.1.sneak_attack_available = true ∧
    (use_class_ability s r).2.2.2.1.ability_uses = s.ability_uses := by
  have hne : ¬ s.ability_uses ≤ 0 := by omega
  refine ⟨?_, ?_, ?_⟩ <;>
    simp [use_class_ability, GameState.use_ability, hab, hne, hu]

/-- Witness for `use_class_ability_sneak_refund` on the concrete rogue
state (one ability use). -/
theorem use_class_ability_sneak_refund_witness :
    (use_class_ability rogueState (constRng 0)).2.2.2.1.ability_uses
      = rogueState.ability_uses :=
  (use_class_ability_sneak_refund rogueState (constRng 0) rfl
    (by decide)).2.2

/-- Reduction lemma: `player_attack` reduces to its body once the stored enemy dict is
well-formed. -/
theorem player_attack_reduce (state : GameState) (us : Bool) (r : Rng)
    (ed : EnemyDict) (e : Enemy)
    (hce : state.current_enemy = some ed) (hfd : Enemy.from_dict ed = some e) :
    player_attack state us r = player_attack_with state e us r := by
  simp only [player_attack, hce, hfd]

/-- Claim C3: in `player_attack` against any current enemy, a raw d20 of 1
is always a miss (whatever the total); a raw 20 is always a hit whose
weapon damage is rolled with the dice count doubled (plus the optional
sneak bonus); for any other raw value the attack hits exactly when
raw + modifier reaches the enemy AC. The raw die is `1 + stream % 20`. -/
theorem player_attack_crit_rules (state : GameState) (us : Bool) (r : Rng)
    (ed : EnemyDict) (e : Enemy)
    (hce : state.current_enemy = some ed) (hfd : Enemy.from_dict ed = some e) :
    (1 + r.stream r.idx % 20 = 1 →
      (player_attack state us r).1.success = false) ∧
    (1 + r.stream r.idx % 20 = 20 →
      (player_attack state us r).1.success = true ∧
      (player_attack state us r).1.damage =
        (roll_damage (state.get_equipped_weapon_data.damage_dice.1 * 2)
            state.get_equipped_weapon_data.damage_dice.2
            (state.get_modifier state.get_equipped_weapon_data.stat)
            state.get_equipped_weapon_data.stat ⟨r.stream, r.idx + 1⟩).1
        + (if us && (state.player_class == "rogue")
              && state.sneak_attack_available
           then ((roll 2 6
              (roll_damage (state.get_equipped_weapon_data.damage_dice.1 * 2)
                state.get_equipped_weapon_data.damage_dice.2
                (state.get_modifier state.get_equipped_weapon_data.stat)
                state.get_equipped_weapon_data.stat
                ⟨r.stream, r.idx + 1⟩).2.2).2.1 : Int)
           else 0)) ∧
    (1 + r.stream r.idx % 20 ≠ 1 → 1 + r.stream r.idx % 20 ≠ 20 →
      ((player_attack state us r).1.success = true ↔
        ((1 + r.stream r.idx % 20 : Nat) : Int)
          + state.get_modifier state.get_equipped_weapon_data.stat ≥ e.ac)) := by
  rw [player_attack_reduce state us r ed e hce hfd]
  refine ⟨?_, ?_, ?_⟩
  · intro h
    have hk : r.stream r.idx % 20 = 0 := by omega
    simp [player_attack_with, roll_d20, Rng.randint1, hk]
  · intro h
    have hk : r.stream r.idx % 20 = 19 := by omega
    constructor
    · simp [player_attack_with, roll_d20, Rng.randint1, hk]
    · simp [player_attack_with, roll_d20, Rng.randint1, hk]
      split
      · simp
      · simp
  · intro h1 h2
    have hb1 : ((1 + r.stream r.idx % 20 == 1) : Bool) = false := by
      simp; omega
    have hb20 : ((1 + r.stream r.idx % 20 == 20) : Bool) = false := by
      simp; omega
    by_cases hac : e.ac ≤ 1 + ((r.stream r.idx : Int)) % 20
        + state.get_modifier state.get_equipped_weapon_data.stat
    · simp [player_attack_with, roll_d20, Rng.randint1, hb1, hb20, hac]
    · simp [player_attack_with, roll_d20, Rng.randint1, hb1, hb20, hac]

/-- Witness for `player_attack_crit_rules`: the concrete rogue against the
goblin with a stream forcing a raw 20 hits (goblin AC 13, modifier 0). -/
theorem player_attack_crit_rules_witness :
    (player_attack rogueState false (constRng 19)).1.success = true :=
  ((player_attack_crit_rules rogueState false (constRng 19)
      goblin.to_dict goblin rfl rfl).2.1 rfl).1

/-- Claim C10: when a sneak attack is requested by a rogue with
`sneak_attack_available`, any hit deals exactly the weapon damage roll
(dice count doubled only when the raw die is 20) plus the sum of a single
2d6 roll — the sneak bonus itself is never doubled and carries no stat
modifier — and turns `sneak_attack_available` off; on any miss the flag is
left on, so the requested sneak attack is not consumed. -/
theorem player_attack_sneak_rules (state : GameState) (r : Rng)
    (ed : EnemyDict) (e : Enemy)
    (hce : state.current_enemy = some ed) (hfd : Enemy.from_dict ed = some e)
    (hcls : state.player_class = "rogue")
    (hav : state.sneak_attack_available = true) :
    ((player_attack state true r).1.success = true →
      (player_attack state true r).1.damage =
        (roll_damage
            (if 1 + r.stream r.idx % 20 = 20
             then state.get_equipped_weapon_data.damage_dice.1 * 2
             else state.get_equipped_weapon_data.damage_dice.1)
            state.get_equipped_weapon_data.damage_dice.2
            (state.get_modifier state.get_equipped_weapon_data.stat)
            state.get_equipped_weapon_data.stat ⟨r.stream, r.idx + 1⟩).1
        + ((roll 2 6
            (roll_damage
              (if 1 + r.stream r.idx % 20 = 20
               then state.get_equipped_weapon_data.damage_dice.1 * 2
               else state.get_equipped_weapon_data.damage_dice.1)
              state.get_equipped_weapon_data.damage_dice.2
              (state.get_modifier state.get_equipped_weapon_data.stat)
              state.get_equipped_weapon_data.stat
              ⟨r.stream, r.idx + 1⟩).2.2).2.1 : Int) ∧
      (player_attack state true r).2.1.sneak_attack_available = false) ∧
    ((player_attack state true r).1.success = false →
      (player_attack state true r).2.1.sneak_attack_available = true) := by
  rw [player_attack_reduce state true r ed e hce hfd]
  have hb1 : ∀ hk : r.stream r.idx % 20 ≠ 0,
      ((1 + r.stream r.idx % 20 == 1) : Bool) = false := by
    intro hk; simp; omega
  have hb20 : ∀ hk : r.stream r.idx % 20 ≠ 19,
      ((1 + r.stream r.idx % 20 == 20) : Bool) = false := by
    intro hk; simp; omega
  constructor
  · intro hs
    by_cases hk0 : r.stream r.idx % 20 = 0
    · exfalso; revert hs
      simp [player_attack_with, roll_d20, Rng.randint1, hk0]
    · by_cases hk19 : r.stream r.idx % 20 = 19
      · constructor
        · simp [player_attack_with, roll_d20, Rng.randint1, hk19, hcls, hav]
        · simp [player_attack_with, roll_d20, Rng.randint1, hk19, hcls, hav]
      · by_cases hac : e.ac ≤ 1 + ((r.stream r.idx : Int)) % 20
            + state.get_modifier state.get_equipped_weapon_data.stat
        · have hif : ¬ (1 + r.stream r.idx % 20 = 20) := by omega
          constructor
          · simp [player_attack_with, roll_d20, Rng.randint1,
              hb1 hk0, hb20 hk19, hac, hif, hcls, hav]
          · simp [player_attack_with, roll_d20, Rng.randint1,
              hb1 hk0, hb20 hk19, hac, hif, hcls, hav]
        · exfalso; revert hs
          simp [player_attack_with, roll_d20, Rng.randint1,
            hb1 hk0, hb20 hk19, hac]
  · intro hs
    by_cases hk0 : r.stream r.idx % 20 = 0
    · simp [player_attack_with, roll_d20, Rng.randint1, hk0, hav]
    · by_cases hk19 : r.stream r.idx % 20 = 19
      · exfalso; revert hs
        simp [player_attack_with, roll_d20, Rng.randint1, hk19]
      · by_cases hac : e.ac ≤ 1 + ((r.stream r.idx : Int)) % 20
            + state.get_modifier state.get_equipped_weapon_data.stat
        · exfalso; revert hs
          simp [player_attack_with, roll_d20, Rng.randint1,
            hb1 hk0, hb20 hk19, hac]
        · simp [player_attack_with, roll_d20, Rng.randint1,
            hb1 hk0, hb20 hk19, hac, hav]

/-- Witness for `player_attack_sneak_rules`: the concrete rogue sneak
attacks the goblin with a critical hit and the availability flag is
consumed. -/
theorem player_attack_sneak_rules_witness :
    (player_attack rogueState true (constRng 19)).2.1.sneak_attack_available
      = false :=
  ((player_attack_sneak_rules rogueState (constRng 19) goblin.to_dict goblin
      rfl rfl rfl rfl).1 (by rfl)).2
